import Mathlib

/-!
Shallow embedding of `src/main.py` (CalorieSmart AI), a Streamlit app that
uploads a food photo and sends it to a remote generative model.

Modelling conventions:
- A raised Python exception is an `Except.error` carrying the message.
- The remote model (everything behind `genai` inside the try block of
  `get_gemini_response`) is an abstract function from the request list to
  `Except String String`: `.ok` is the generated text, `.error` a raise.
- The Streamlit upload handle is a structure with the declared MIME type
  (`.type`) and a fallible byte retrieval (`.getvalue()`).
- Side effects (`st.error`, `st.warning`, `st.markdown` of the result)
  are tracked explicitly in the return values.
-/

namespace CalorieSmart

/-- A byte buffer, one natural number per byte. -/
abbrev Bytes := List Nat

/-- One entry of the image payload: the dict `\x7b"mime_type": ..., "data": ...\x7d`
built by `process_uploaded_image` (src/main.py:157-160). -/
structure PayloadEntry where
  mime_type : String
  data : Bytes
  deriving DecidableEq, Repr

/-- One positional element of the `generate_content` request list: a plain
string or an image payload dict. -/
inductive Part where
  | text (s : String)
  | image (p : PayloadEntry)
  deriving DecidableEq, Repr

/-- The remote model call: maps the request list to the generated text
(`.ok`) or to a raised exception with its message (`.error`). -/
abbrev Remote := List Part → Except String String

/-- The Streamlit upload handle: a declared MIME type (the `.type`
attribute) and byte retrieval (`.getvalue()`), which may raise. -/
structure UploadedFile where
  type : String
  getvalue : Except String Bytes

/-- Fixed model name (src/main.py:84). -/
def MODEL_NAME : String := "gemini-2.0-flash"

/-- The nutrition analysis prompt template constant (src/main.py:88-109). -/
def NUTRITION_PROMPT : String :=
  "\nAs a professional nutritionist, analyze the food items in the image and provide:\n1. A detailed list of identified food items with their estimated calories\n2. Total caloric content\n3. Basic nutritional insights and health recommendations\n\nFormat the response as:\n\n📋 Identified Items:\n• [Food Item] - [Calories] kcal\n• [Food Item] - [Calories] kcal\n\n📊 Total Calories: [Sum] kcal\n\n💡 Nutritional Insights:\n• [Insight 1]\n• [Insight 2]\n\n🌟 Health Tips:\n• [Recommendation 1]\n• [Recommendation 2]\n"

/-- The fixed fallback text returned by `get_gemini_response` on any
exception (src/main.py:136). -/
def FALLBACK_TEXT : String :=
  "Sorry, there was an error analyzing the image. Please try again."

/-- The request list `[user_input, image_data[0], prompt]` constructed
inside `get_gemini_response` (src/main.py:132); `none` when the index
access `image_data[0]` raises `IndexError` (empty list). -/
def gemini_request (user_input : String) (image_data : List PayloadEntry)
    (prompt : String) : Option (List Part) :=
  match image_data with
  | [] => none
  | entry :: _ => some [Part.text user_input, Part.image entry, Part.text prompt]

/-- Outcome of the try block around the remote call: on success the
response text with no error display; on an exception the fallback text
together with the `st.error` message (src/main.py:133-136). -/
def remote_call_result (res : Except String String) : String × List String :=
  match res with
  | Except.ok t => (t, [])
  | Except.error e => (FALLBACK_TEXT, ["Error generating response: " ++ e])

/-- `get_gemini_response` (src/main.py:111-136): returns the response
string paired with the list of `st.error` messages displayed. An empty
`image_data` raises `IndexError` inside the try block, which the same
handler catches. -/
def get_gemini_response (user_input : String) (image_data : List PayloadEntry)
    (prompt : String) (remote : Remote) : String × List String :=
  match gemini_request user_input image_data prompt with
  | none => (FALLBACK_TEXT, ["Error generating response: list index out of range"])
  | some req => remote_call_result (remote req)

/-- The three possible outcomes of `process_uploaded_image`: the
`FileNotFoundError` it raises on an absent upload, the `None` returned
after `st.error` when byte retrieval raises, or the returned one-element
payload list. -/
inductive IngestResult where
  | raised (msg : String)
  | failed (msg : String)
  | payload (p : List PayloadEntry)
  deriving DecidableEq, Repr

/-- `process_uploaded_image` (src/main.py:138-163). -/
def process_uploaded_image (uploaded_file : Option UploadedFile) : IngestResult :=
  match uploaded_file with
  | none => IngestResult.raised "No file uploaded"
  | some f =>
    match f.getvalue with
    | Except.error e => IngestResult.failed ("Error processing image: " ++ e)
    | Except.ok bytes_data => IngestResult.payload [⟨f.type, bytes_data⟩]

/-- The module-level credential check (src/main.py:75-78). Python
`not GOOGLE_API_KEY` is true when the variable is unset (`None`) and when
it is the empty string; either raises `EnvironmentError` before any other
code runs. -/
def startup (google_api_key : Option String) : Except String String :=
  match google_api_key with
  | none => Except.error "GOOGLE_API_KEY not found in environment variables"
  | some k =>
    if k = "" then Except.error "GOOGLE_API_KEY not found in environment variables"
    else Except.ok k

/-- Observable outcome of one run of `main`'s interaction handling:
whether the `st.warning` fired, how many times `process_uploaded_image`
and `get_gemini_response` were invoked, the analysis text rendered by
`st.markdown` (if any), and the error messages shown. -/
structure MainObs where
  warned : Bool
  ingesterCalls : Nat
  clientCalls : Nat
  displayed : Option String
  errors : List String
  deriving DecidableEq, Repr

/-- The interaction flow of `main` (src/main.py:193-250) with the prompt
template as a parameter (`main` below fixes it to `NUTRITION_PROMPT`).
`display_exc` is the exception raised while rendering the preview image
(src/main.py:211-221), `none` on success; on failure `main` returns early.
When submit is pressed with an upload present, the try block calls the
ingester, then calls the client only if the payload is truthy
(src/main.py:237-248); submit with no upload warns (src/main.py:249-250). -/
def main_flow (prompt : String) (uploaded_file : Option UploadedFile)
    (display_exc : Option String) (user_input : String) (submit : Bool)
    (remote : Remote) : MainObs :=
  match uploaded_file with
  | some f =>
    match display_exc with
    | some e => ⟨false, 0, 0, none, ["Error displaying image: " ++ e]⟩
    | none =>
      if submit then
        match process_uploaded_image (some f) with
        | IngestResult.raised msg => ⟨false, 1, 0, none, ["❌ Analysis failed: " ++ msg]⟩
        | IngestResult.failed msg => ⟨false, 1, 0, none, [msg]⟩
        | IngestResult.payload image_data =>
          let r := get_gemini_response user_input image_data prompt remote
          ⟨false, 1, 1, some r.fst, r.snd⟩
      else ⟨false, 0, 0, none, []⟩
  | none =>
    if submit then ⟨true, 0, 0, none, ["⚠️ Please upload an image first."]⟩
    else ⟨false, 0, 0, none, []⟩

/-- `main` as shipped: `main_flow` with the repository's constant
`NUTRITION_PROMPT` (src/main.py:242). -/
def main : Option UploadedFile → Option String → String → Bool → Remote → MainObs :=
  main_flow NUTRITION_PROMPT

/-- Claim C1: if the remote call (or anything inside the client, including
the index access) raises, `get_gemini_response` absorbs the exception and
returns the fixed fallback string; it never propagates (the embedding is
total by construction). -/
theorem c1_remote_exception_absorbed (u p e : String) (img : List PayloadEntry)
    (r : Remote)
    (h : ∀ req, gemini_request u img p = some req → r req = Except.error e) :
    (get_gemini_response u img p r).fst = FALLBACK_TEXT := by
  cases img with
  | nil => rfl
  | cons entry rest =>
    have hr := h [Part.text u, Part.image entry, Part.text p] rfl
    simp [get_gemini_response, gemini_request, remote_call_result, hr]

/-- Witness for C1 at a concrete upload and an always-raising remote. -/
theorem c1_witness :
    (get_gemini_response "hi" [⟨"image/png", [137, 80, 78, 71]⟩] NUTRITION_PROMPT
      (fun _ => Except.error "boom")).fst = FALLBACK_TEXT :=
  c1_remote_exception_absorbed "hi" NUTRITION_PROMPT "boom"
    [⟨"image/png", [137, 80, 78, 71]⟩] (fun _ => Except.error "boom")
    (fun _ _ => rfl)

/-- Claim C2: for a present upload whose byte retrieval succeeds with a
non-empty buffer, the ingester returns the one-element payload whose
mime_type and data equal the inputs exactly. -/
theorem c2_roundtrip_identity (f : UploadedFile) (bs : Bytes)
    (h1 : f.getvalue = Except.ok bs) (h2 : bs ≠ []) :
    process_uploaded_image (some f) = IngestResult.payload [⟨f.type, bs⟩] := by
  simp [process_uploaded_image, h1]

/-- Witness for C2 at a concrete four-byte PNG upload. -/
theorem c2_witness :
    ([137, 80, 78, 71] : Bytes) ≠ [] ∧
    process_uploaded_image (some ⟨"image/png", Except.ok [137, 80, 78, 71]⟩) =
      IngestResult.payload [⟨"image/png", [137, 80, 78, 71]⟩] :=
  ⟨by decide,
   c2_roundtrip_identity ⟨"image/png", Except.ok [137, 80, 78, 71]⟩
     [137, 80, 78, 71] rfl (by decide)⟩

/-- Claim C3: the model client passes the remote call exactly the ordered
list `[instructions, image_data[0], prompt]`; in particular for
instructions "focus on protein", the ten-byte PNG payload entry and the
constant prompt, the constructed list is exactly that triple with the
payload's index-0 entry in second position. -/
theorem c3_request_construction :
    (∀ (u p : String) (entry : PayloadEntry) (rest : List PayloadEntry) (r : Remote),
        get_gemini_response u (entry :: rest) p r =
          remote_call_result (r [Part.text u, Part.image entry, Part.text p])) ∧
    gemini_request "focus on protein"
        [⟨"image/png", [137, 80, 78, 71, 46, 46, 46, 46, 46, 46]⟩] NUTRITION_PROMPT =
      some [Part.text "focus on protein",
            Part.image ⟨"image/png", [137, 80, 78, 71, 46, 46, 46, 46, 46, 46]⟩,
            Part.text NUTRITION_PROMPT] :=
  ⟨fun _ _ _ _ _ => rfl, rfl⟩

/-- Claim C4: for the absent upload handle, the ingester raises
`FileNotFoundError` with message "No file uploaded" and returns no
sequence. -/
theorem c4_absent_upload_raises :
    process_uploaded_image none = IngestResult.raised "No file uploaded" := rfl

/-- Claim C5: pressing submit with no upload present produces the warning
state and makes zero calls to the ingester and zero calls to the model
client. -/
theorem c5_no_upload_warns_no_calls (de : Option String) (u : String) (r : Remote) :
    (main none de u true r).warned = true ∧
    (main none de u true r).ingesterCalls = 0 ∧
    (main none de u true r).clientCalls = 0 :=
  ⟨rfl, rfl, rfl⟩

/-- Claim C6: when the credential is absent from the environment (unset or
empty), startup fails with the `EnvironmentError`, before any request is
served (the check is module-level code, run before `main`). -/
theorem c6_missing_credential_fatal (v : Option String)
    (h : v = none ∨ v = some "") :
    startup v = Except.error "GOOGLE_API_KEY not found in environment variables" := by
  rcases h with h | h <;> subst h <;> rfl

/-- Witness for C6 at the unset environment. -/
theorem c6_witness :
    ((none : Option String) = none ∨ (none : Option String) = some "") ∧
    startup none = Except.error "GOOGLE_API_KEY not found in environment variables" :=
  ⟨Or.inl rfl, c6_missing_credential_fatal none (Or.inl rfl)⟩

/-- Claim C7: when byte retrieval raises, the ingester signals the
recoverable error ("Error processing image: ...") and yields no payload,
and in the main flow the model client is never invoked and no analysis
text is displayed. -/
theorem c7_unreadable_bytes_no_payload (f : UploadedFile) (e u : String) (r : Remote)
    (h : f.getvalue = Except.error e) :
    process_uploaded_image (some f) = IngestResult.failed ("Error processing image: " ++ e) ∧
    (main (some f) none u true r).clientCalls = 0 ∧
    (main (some f) none u true r).displayed = none := by
  have hp : process_uploaded_image (some f) =
      IngestResult.failed ("Error processing image: " ++ e) := by
    simp [process_uploaded_image, h]
  refine ⟨hp, ?_, ?_⟩ <;> simp [main, main_flow, hp]

/-- Witness for C7 at a concrete upload whose retrieval raises. -/
theorem c7_witness :
    (⟨"image/png", Except.error "unreadable"⟩ : UploadedFile).getvalue =
      Except.error "unreadable" ∧
    process_uploaded_image (some ⟨"image/png", Except.error "unreadable"⟩) =
      IngestResult.failed ("Error processing image: " ++ "unreadable") ∧
    (main (some ⟨"image/png", Except.error "unreadable"⟩) none "" true
      (fun _ => Except.ok "x")).clientCalls = 0 :=
  ⟨rfl,
   (c7_unreadable_bytes_no_payload ⟨"image/png", Except.error "unreadable"⟩
      "unreadable" "" (fun _ => Except.ok "x") rfl).1,
   (c7_unreadable_bytes_no_payload ⟨"image/png", Except.error "unreadable"⟩
      "unreadable" "" (fun _ => Except.ok "x") rfl).2.1⟩

/-- Claim C8: changing only the prompt template does not change control
flow: whether a request is constructed and everything in it except the
prompt slot are prompt-independent, and along the whole flow the warning
state and the number of ingester and client invocations coincide between
the two runs (noninterference of the prompt constant). -/
theorem c8_prompt_noninterference (p1 p2 u ui : String) (img : List PayloadEntry)
    (up : Option UploadedFile) (de : Option String) (s : Bool) (r : Remote) :
    (gemini_request u img p1).isSome = (gemini_request u img p2).isSome ∧
    Option.map List.dropLast (gemini_request u img p1) =
      Option.map List.dropLast (gemini_request u img p2) ∧
    (main_flow p1 up de ui s r).warned = (main_flow p2 up de ui s r).warned ∧
    (main_flow p1 up de ui s r).ingesterCalls = (main_flow p2 up de ui s r).ingesterCalls ∧
    (main_flow p1 up de ui s r).clientCalls = (main_flow p2 up de ui s r).clientCalls := by
  refine ⟨by cases img <;> rfl, by cases img <;> rfl, ?_⟩
  cases up with
  | none => cases s <;> exact ⟨rfl, rfl, rfl⟩
  | some f =>
    cases de with
    | some e => exact ⟨rfl, rfl, rfl⟩
    | none =>
      cases s with
      | false => exact ⟨rfl, rfl, rfl⟩
      | true =>
        cases hpi : process_uploaded_image (some f) <;>
          simp [main_flow, hpi]

/-- Claim C9: the ingester performs no size or content check: the
round-trip identity holds for every successfully retrieved buffer,
including the empty one. -/
theorem c9_no_size_check (f : UploadedFile) (bs : Bytes)
    (h : f.getvalue = Except.ok bs) :
    process_uploaded_image (some f) = IngestResult.payload [⟨f.type, bs⟩] := by
  simp [process_uploaded_image, h]

/-- Witness for C9 at a concrete upload with an empty byte buffer. -/
theorem c9_witness :
    process_uploaded_image (some ⟨"image/jpeg", Except.ok []⟩) =
      IngestResult.payload [⟨"image/jpeg", []⟩] :=
  c9_no_size_check ⟨"image/jpeg", Except.ok []⟩ [] rfl

/-- Claim C10: `get_gemini_response` is total over payload lists of every
length: on the empty list the out-of-range access is caught by the same
handler and the fixed fallback string is returned. -/
theorem c10_empty_payload_fallback (u p : String) (r : Remote) :
    (get_gemini_response u [] p r).fst = FALLBACK_TEXT := rfl

end CalorieSmart
